import Mathlib

/-!
Shallow embedding of `src/main.py` (a FastAPI metadata provider scraping
ranobes.com) and proofs about it.

Modelling conventions:
* The HTML parser (BeautifulSoup) is an external collaborator; HTTP
  responses therefore carry an already-parsed document tree (`Node`).
* `Node`/`NodeList` form a mutual inductive so that every function on
  documents is structurally recursive and reduces inside the kernel.
* The CSS selector subset actually used by the source (tag names, `.class`,
  `#id`, `[attr='value']`, descendant chains, `select` in document order,
  `select_one` = first match) is implemented directly on the tree.
* Python exceptions become `Except`; `None` becomes `Option.none`; the
  truthiness tests on strings and lists are spelled out explicitly.
* Network effects are explicit: the functions that perform HTTP calls take
  the network as a function argument and also return the ordered trace of
  calls they issued.
-/

mutual
/-- A parsed HTML node: a text node or an element with attributes (an
association list, first binding wins, as in the parser) and children. -/
inductive Node where
  | text (s : String)
  | element (tag : String) (attrs : List (String × String)) (children : NodeList)
deriving Repr
inductive NodeList where
  | nil
  | cons (head : Node) (tail : NodeList)
deriving Repr
end

/-- Build a `NodeList` from a `List Node` (literal convenience). -/
def nodes : List Node → NodeList
  | [] => .nil
  | n :: ns => .cons n (nodes ns)

/-- Element smart constructor taking a plain list of children. -/
def el (tag : String) (attrs : List (String × String)) (cs : List Node) : Node :=
  .element tag attrs (nodes cs)

/-- Text node smart constructor. -/
def txt (s : String) : Node := .text s

/-- The children of a node (`.contents` in BeautifulSoup). -/
def Node.kids : Node → NodeList
  | .text _ => .nil
  | .element _ _ cs => cs

/-- Attribute lookup, `tag.get(name)` / `tag[name]` before the KeyError check:
first binding of the name in the attribute list. -/
def Node.attr : Node → String → Option String
  | .text _, _ => none
  | .element _ as _, k => (as.find? (fun kv => kv.1 == k)).map (fun kv => kv.2)

/-- Split a character list on whitespace (accumulator holds the current word
reversed); used for the HTML `class` attribute's word list. -/
def splitWsAux : List Char → List Char → List (List Char)
  | acc, [] => [acc.reverse]
  | acc, c :: rest =>
    if c.isWhitespace then acc.reverse :: splitWsAux [] rest
    else splitWsAux (c :: acc) rest

/-- The whitespace-separated words of a node's `class` attribute. -/
def classWords (n : Node) : List (List Char) :=
  (splitWsAux [] ((n.attr "class").getD "").toList).filter (fun w => !w.isEmpty)

/-- One compound CSS selector without combinators: optional tag name, optional
`#id`, required classes, required `[attr='value']` exact matches. -/
structure SimpleSel where
  tag : Option String := none
  id : Option String := none
  classes : List String := []
  attrsEq : List (String × String) := []
deriving Repr

/-- A descendant-combinator chain `s1 s2 ... sk` (outermost first). -/
abbrev Selector := List SimpleSel

/-- Whether an element satisfies one compound selector (text nodes never do). -/
def matchesSimple (n : Node) (s : SimpleSel) : Bool :=
  match n with
  | .text _ => false
  | .element t _ _ =>
    (match s.tag with | none => true | some tg => t == tg) &&
    (match s.id with | none => true | some i => n.attr "id" == some i) &&
    s.classes.all (fun c => (classWords n).contains c.toList) &&
    s.attrsEq.all (fun kv => n.attr kv.1 == some kv.2)

/-- Whether the ancestor list (outermost first) contains an in-order
subsequence satisfying the given selectors. -/
def ancMatch : Selector → List Node → Bool
  | [], _ => true
  | _ :: _, [] => false
  | s :: ss, a :: as => (matchesSimple a s && ancMatch ss as) || ancMatch (s :: ss) as

/-- Whether a node with the given ancestors matches a descendant chain: the
node satisfies the last compound selector and the earlier ones match
ancestors in order. -/
def nodeMatches (sel : Selector) (anc : List Node) (n : Node) : Bool :=
  match sel.reverse with
  | [] => false
  | s :: rest => matchesSimple n s && ancMatch rest.reverse anc

mutual
/-- Collect, in document (pre-order) order, the nodes of a subtree matching a
selector chain; `anc` lists the ancestors of the visited node, outermost
first. -/
def selAux (sel : Selector) (anc : List Node) : Node → List Node
  | .text _ => []
  | .element t a cs =>
    (if nodeMatches sel anc (.element t a cs) then [Node.element t a cs] else [])
      ++ selAuxL sel (anc ++ [Node.element t a cs]) cs
def selAuxL (sel : Selector) (anc : List Node) : NodeList → List Node
  | .nil => []
  | .cons n rest => selAux sel anc n ++ selAuxL sel anc rest
end

/-- `soup.select(sel)` on a whole parsed document: every node of the document,
the root included, is a candidate. -/
def selectAllDoc (sel : Selector) (doc : Node) : List Node :=
  selAux sel [] doc

/-- `tag.select(sel)`: only strict descendants of the scope element are
candidates; the scope element itself may still serve as an ancestor for the
chain's earlier parts. -/
def selectAllIn (sel : Selector) (scope : Node) : List Node :=
  selAuxL sel [scope] scope.kids

/-- `soup.select_one(sel)`: first match in document order, if any. -/
def selectOneDoc (sel : Selector) (doc : Node) : Option Node :=
  (selectAllDoc sel doc).head?

/-- `tag.select_one(sel)`: first match among strict descendants. -/
def selectOneIn (sel : Selector) (scope : Node) : Option Node :=
  (selectAllIn sel scope).head?

mutual
/-- All text-node strings of a subtree, in document order
(BeautifulSoup's `strings`). -/
def Node.texts : Node → List String
  | .text s => [s]
  | .element _ _ cs => cs.textsL
def NodeList.textsL : NodeList → List String
  | .nil => []
  | .cons n rest => n.texts ++ rest.textsL
end

/-- Python's `str.strip()`: drop leading and trailing whitespace. -/
def pyStrip (s : String) : String :=
  String.mk (((s.toList.dropWhile Char.isWhitespace).reverse.dropWhile
    Char.isWhitespace).reverse)

/-- BeautifulSoup's `get_text(strip=True)` string stream: each text node
stripped, empty results dropped. -/
def strippedStrings (n : Node) : List String :=
  (n.texts.map pyStrip).filter (fun s => !s.isEmpty)

/-- `tag.get_text(strip=True)`. -/
def getTextStrip (n : Node) : String :=
  String.join (strippedStrings n)

/-- `tag.get_text(separator=sep, strip=True)`. -/
def getTextSepStrip (sep : String) (n : Node) : String :=
  String.intercalate sep (strippedStrings n)

/-- Scan for the closing parenthesis of `url(`: the regex fragment `(.*?)\)`,
whose `.` does not cross a newline; returns the characters before the first
`)` when one is reachable. -/
def closeParen : List Char → Option (List Char)
  | [] => none
  | c :: cs =>
    if c == ')' then some []
    else if c == '\n' then none
    else (closeParen cs).map (fun t => c :: t)

/-- The semantics of `re.search(r"url\((.*?)\)", s)` on a character list:
first position where `url(` is followed by a reachable `)`; the group is the
characters strictly between the parentheses. -/
def urlSearch : List Char → Option (List Char)
  | [] => none
  | c :: cs =>
    if c == 'u' && cs.take 3 == ['r', 'l', '('] then
      match closeParen (cs.drop 3) with
      | some content => some content
      | none => urlSearch cs
    else urlSearch cs

/-- Group 1 of `re.search(r"url\((.*?)\)", s)`, as a string. -/
def urlToken (s : String) : Option String :=
  (urlSearch s.toList).map (fun cs => String.mk cs)

/-- Numeric value of a digit run (`int` on the matched group). -/
def digitsVal (ds : List Char) : Nat :=
  ds.foldl (fun n c => n * 10 + (c.toNat - 48)) 0

/-- The semantics of `re.match(r"PT(\d+)H", s)`: anchored at the start, `PT`,
a maximal nonempty digit run, then `H`; yields the hours. -/
def ptHours (s : String) : Option Nat :=
  match s.toList with
  | 'P' :: 'T' :: rest =>
    let ds := rest.takeWhile Char.isDigit
    if ds.isEmpty then none
    else if (rest.dropWhile Char.isDigit).head? == some 'H' then some (digitsVal ds)
    else none
  | _ => none

/-- The series entries of `SeriesMetadata` (schema only; never populated). -/
structure SeriesMetadata where
  series : String
  sequence : Option String := none
deriving Repr, DecidableEq

/-- The `BookMetadata` response schema with its defaults. -/
structure BookMetadata where
  title : String
  subtitle : Option String := none
  author : Option String := none
  narrator : Option String := none
  publisher : Option String := none
  publishedYear : Option String := none
  description : Option String := none
  cover : Option String := none
  isbn : Option String := none
  asin : Option String := none
  genres : List String := []
  tags : List String := []
  series : List SeriesMetadata := []
  language : Option String := none
  duration : Option Nat := none
deriving Repr, DecidableEq

/-- The selectors of `fetch_and_parse_book`, one per source line. -/
def bookRootSel : Selector :=
  [{ tag := some "article", attrsEq := [("itemtype", "http://schema.org/Book")] }]

def titleSel : Selector := [{ tag := some "h1", classes := ["title"] }]

def subtitleSel : Selector := [{ tag := some "span", classes := ["subtitle"] }]

def descriptionSel : Selector := [{ attrsEq := [("itemprop", "description")] }]

def coverSel : Selector :=
  [{ classes := ["poster"] }, { tag := some "figure", classes := ["cover"] }]

def dateCreatedSel : Selector := [{ attrsEq := [("itemprop", "dateCreated")] }]

def locationCreatedSel : Selector := [{ attrsEq := [("itemprop", "locationCreated")] }]

def publishersSel : Selector :=
  [{ tag := some "span", classes := ["publishers_list"] }, { tag := some "span" },
   { tag := some "a" }]

def genresSel : Selector := [{ id := some "mc-fs-genre" }, { tag := some "a" }]

def tagsSel : Selector := [{ attrsEq := [("itemprop", "keywords")] }, { tag := some "a" }]

def timeRequiredSel : Selector := [{ attrsEq := [("itemprop", "timeRequired")] }]

/-- The listing selectors of `perform_search`. -/
def listingSel : Selector :=
  [{ id := some "dle-content" },
   { tag := some "article", classes := ["block", "story", "shortstory", "mod-poster"] }]

def listingTitleSel : Selector := [{ tag := some "h2", classes := ["title"] }, { tag := some "a" }]

/-- Failure of the extraction of one detail page. Every Python exception the
extractor can raise (attribute access on `None` when the root or the cover
element is missing, `contents[0]` on an empty heading, `.strip()` on a tag,
`KeyError` on the missing `style` attribute) is absorbed by the caller's
blanket `except Exception`, so a single error value models them all. -/
inductive ExtractErr where
  | malformedPage
deriving Repr, DecidableEq

/-- The pure part of `fetch_and_parse_book` (`src/main.py` lines 64-108): from
a parsed detail-page document to a `BookMetadata`, following the source
line by line. -/
def extract (doc : Node) : Except ExtractErr BookMetadata :=
  match selectOneDoc bookRootSel doc with
  | none => .error .malformedPage
  | some block =>
    match selectOneIn titleSel block with
    | none => .error .malformedPage
    | some h1 =>
      match h1.kids with
      | .nil => .error .malformedPage
      | .cons (.element _ _ _) _ => .error .malformedPage
      | .cons (.text t) _ =>
        let title := pyStrip t
        let subtitle := (selectOneIn subtitleSel block).map getTextStrip
        let description := (selectOneIn descriptionSel block).map (getTextSepStrip "\n")
        match selectOneIn coverSel block with
        | none => .error .malformedPage
        | some figureCover =>
          match figureCover.attr "style" with
          | none => .error .malformedPage
          | some cover_style =>
            let cover := urlToken cover_style
            let publishedYear := (selectOneIn dateCreatedSel block).map getTextStrip
            let language := (selectOneIn locationCreatedSel block).map getTextStrip
            let publisher_tags := selectAllIn publishersSel block
            let publisher :=
              if publisher_tags.isEmpty then none
              else some (String.intercalate ", " (publisher_tags.map getTextStrip))
            let genres := (selectAllIn genresSel block).map getTextStrip
            let tags := (selectAllIn tagsSel block).map getTextStrip
            let duration :=
              match selectOneIn timeRequiredSel block with
              | none => none
              | some durationMeta =>
                match durationMeta.attr "content" with
                | none => none
                | some c =>
                  if c.isEmpty then none
                  else
                    match ptHours c with
                    | none => none
                    | some h => some (h * 3600)
            .ok { title := title, subtitle := subtitle, description := description,
                  cover := cover, publishedYear := publishedYear, language := language,
                  publisher := publisher, genres := genres, tags := tags,
                  duration := duration }

/-- An HTTP response as the core consumes it: the status code and the body
already parsed into a document tree. -/
structure HttpResponse where
  status : Nat
  body : Node

/-- The three authentication cookies returned by `get_auth_cookies`. -/
structure Cookies where
  dle_user_id : String
  dle_password : String
  PHPSESSID : String

/-- The remote site as a pure capability: the response to the listing POST
for a query, and the response to a GET of a detail URL, each with the
cookies that were attached. -/
structure Net where
  post : String → Cookies → HttpResponse
  get : String → Cookies → HttpResponse

/-- One outbound HTTP call, for the request trace. -/
inductive NetCall where
  | post (query : String)
  | get (url : String)
deriving Repr, DecidableEq

/-- Failure of `fetch_and_parse_book` for one link: non-success status
(the raised `HTTPException(500)`) or extractor failure. -/
inductive FetchErr where
  | fetchFailed
  | malformed (e : ExtractErr)
deriving Repr, DecidableEq

/-- `fetch_and_parse_book` (`src/main.py` lines 58-108): GET the url with the
cookies; on a non-200 status raise; otherwise extract the parsed body. -/
def fetch_and_parse_book (net : Net) (url : String) (cookies : Cookies) :
    Except FetchErr BookMetadata :=
  let response := net.get url cookies
  if response.status ≠ 200 then .error .fetchFailed
  else (extract response.body).mapError .malformed

/-- Failure of `perform_search` as a whole: non-success listing status (the
raised `HTTPException(500, "Failed to search ranobes.com")`), or the
uncaught `KeyError` when a harvested title anchor lacks an `href`. -/
inductive SearchErr where
  | searchUnavailable
  | internalError
deriving Repr, DecidableEq

/-- Link harvesting (`src/main.py` line 132-133): the listing articles, those
with a title anchor, and each such anchor's `href`; `none` models the
uncaught `KeyError` of an anchor without `href`. -/
def harvestLinks (body : Node) : Option (List String) :=
  let articles := selectAllDoc listingSel body
  let anchors := articles.filterMap (fun a => selectOneIn listingTitleSel a)
  anchors.mapM (fun a => a.attr "href")

/-- `perform_search` (`src/main.py` lines 111-142), with the ordered trace of
HTTP calls it issues. The per-link loop is `try ... except Exception:
continue`, i.e. the successes of `fetch_and_parse_book` in link order; every
link is still fetched (the GET precedes the failure), so the trace lists
every harvested link. -/
def perform_search (net : Net) (query : String) (cookies : Cookies) :
    Except SearchErr (List BookMetadata) × List NetCall :=
  let response := net.post query cookies
  if response.status ≠ 200 then (.error .searchUnavailable, [.post query])
  else
    match harvestLinks response.body with
    | none => (.error .internalError, [.post query])
    | some links =>
      (.ok (links.filterMap (fun link => (fetch_and_parse_book net link cookies).toOption)),
        .post query :: links.map NetCall.get)

/-- The process environment's three relevant variables. -/
structure Env where
  DLE_USER_ID : Option String
  DLE_PASSWORD : Option String
  PHPSESSID : Option String

/-- `os.getenv("DLE_USER_ID")` at module import (`src/main.py` line 41): the
settings are read once from the environment the process started with. -/
def COOKIE_DLE_USER_ID (startupEnv : Env) : Option String := startupEnv.DLE_USER_ID

/-- `os.getenv("DLE_PASSWORD")` at module import (line 42). -/
def COOKIE_DLE_PASSWORD (startupEnv : Env) : Option String := startupEnv.DLE_PASSWORD

/-- `os.getenv("PHPSESSID")` at module import (line 43). -/
def COOKIE_PHPSESSID (startupEnv : Env) : Option String := startupEnv.PHPSESSID

/-- Python truthiness of an optional string: `None` and `""` are falsy. -/
def truthy : Option String → Bool
  | none => false
  | some s => !s.isEmpty

/-- The 401 `HTTPException` of `get_auth_cookies`. -/
inductive AuthErr where
  | unauthenticated
deriving Repr, DecidableEq

/-- `get_auth_cookies` (`src/main.py` lines 47-54): `not all([...])` raises
the 401; otherwise the three cookies are returned. -/
def get_auth_cookies (startupEnv : Env) : Except AuthErr Cookies :=
  if truthy (COOKIE_DLE_USER_ID startupEnv) && truthy (COOKIE_DLE_PASSWORD startupEnv)
      && truthy (COOKIE_PHPSESSID startupEnv) then
    .ok { dle_user_id := (COOKIE_DLE_USER_ID startupEnv).getD ""
        , dle_password := (COOKIE_DLE_PASSWORD startupEnv).getD ""
        , PHPSESSID := (COOKIE_PHPSESSID startupEnv).getD "" }
  else .error .unauthenticated

/-- The error classes the endpoint can surface. -/
inductive ApiErr where
  | unauthenticated
  | searchUnavailable
  | internalError
deriving Repr, DecidableEq

/-- The `/search` endpoint (`src/main.py` lines 146-158): obtain the cookies
(the 401 propagates before any network call), then delegate to
`perform_search`; the success value is the `matches` list. -/
def search (startupEnv : Env) (net : Net) (query : String) :
    Except ApiErr (List BookMetadata) × List NetCall :=
  match get_auth_cookies startupEnv with
  | .error .unauthenticated => (.error .unauthenticated, [])
  | .ok cookies =>
    match perform_search net query cookies with
    | (.ok books, calls) => (.ok books, calls)
    | (.error .searchUnavailable, calls) => (.error .searchUnavailable, calls)
    | (.error .internalError, calls) => (.error .internalError, calls)

/-- The endpoint as a function of both the startup-time and the request-time
process environment. The source reads the secrets from the environment only
at module import (`src/main.py` lines 41-43) and nothing on the request path
reads the environment again, so the request-time environment is not
consulted. -/
def searchAtRequestTime (startupEnv _requestEnv : Env) (net : Net) (query : String) :
    Except ApiErr (List BookMetadata) × List NetCall :=
  search startupEnv net query

/-! Concrete page fixtures used by witnesses and counterexamples. -/

/-- A `.poster > figure.cover` block carrying the given inline style. -/
def coverFig (style : String) : Node :=
  el "div" [("class", "poster")] [el "figure" [("class", "cover"), ("style", style)] []]

/-- A well-formed detail page: root book container, title heading with the
given first text node, cover block with the given style, then extras. -/
def bookPageT (titleText style : String) (extras : List Node) : Node :=
  el "article" [("itemtype", "http://schema.org/Book")]
    (el "h1" [("class", "title")] [txt titleText] :: coverFig style :: extras)

/-- A well-formed detail page with the default title text. -/
def bookPage (style : String) (extras : List Node) : Node :=
  bookPageT "  Sample Title " style extras

/-- A `meta`-like element with `itemprop='timeRequired'` and a `content`. -/
def durMeta (c : String) : Node :=
  el "span" [("itemprop", "timeRequired"), ("content", c)] []

/-- A publishers list with one anchor per name. -/
def pubBlock (names : List String) : Node :=
  el "span" [("class", "publishers_list")]
    [el "span" [] (names.map (fun s => el "a" [("href", "x")] [txt s]))]

/-- A listing page: the `#dle-content` container with the given articles. -/
def listing (arts : List Node) : Node := el "div" [("id", "dle-content")] arts

/-- One listing result article whose title anchor has the given `href`. -/
def artFor (href : String) : Node :=
  el "article" [("class", "block story shortstory mod-poster")]
    [el "h2" [("class", "title")] [el "a" [("href", href)] [txt "t"]]]

/-- A detail page whose root book container is missing entirely. -/
def docNoRoot : Node := el "div" [] [txt "nothing here"]

/-- A root book container without the required title heading. -/
def docNoTitle : Node :=
  el "article" [("itemtype", "http://schema.org/Book")] [txt "no title", coverFig "x"]

/-- A page with root and title but no cover element at all. -/
def docNoCoverEl : Node :=
  el "article" [("itemtype", "http://schema.org/Book")]
    [el "h1" [("class", "title")] [txt "T"]]

/-- A page with root, title and cover element, but no `style` attribute. -/
def docNoCoverStyle : Node :=
  el "article" [("itemtype", "http://schema.org/Book")]
    [el "h1" [("class", "title")] [txt "T"],
     el "div" [("class", "poster")] [el "figure" [("class", "cover")] []]]

/-- The cookies used by concrete scenarios. -/
def ck0 : Cookies := { dle_user_id := "u", dle_password := "p", PHPSESSID := "s" }

/-- The records extracted from the two healthy pages of the 3-link scenario. -/
def book1 : BookMetadata := { title := "Book One", cover := some "/c1.jpg" }

def book3 : BookMetadata := { title := "Book Three", cover := some "/c3.jpg" }

/-- The 3-link scenario's network: the listing yields `u1`, `u2`, `u3`; `u2`
answers with a non-success status; `u1` and `u3` serve healthy pages. -/
def net3 : Net :=
  { post := fun _ _ => { status := 200, body := listing [artFor "u1", artFor "u2", artFor "u3"] }
  , get := fun url _ =>
      if url == "u1" then { status := 200, body := bookPageT "Book One" "url(/c1.jpg)" [] }
      else if url == "u3" then { status := 200, body := bookPageT "Book Three" "url(/c3.jpg)" [] }
      else { status := 500, body := txt "" } }

/-- A network whose listing POST fails and whose GETs would all succeed with
an empty body. -/
def netFail : Net :=
  { post := fun _ _ => { status := 503, body := txt "" }
  , get := fun _ _ => { status := 200, body := txt "" } }

/-- Environment with none of the three secrets. -/
def envUnset : Env := { DLE_USER_ID := none, DLE_PASSWORD := none, PHPSESSID := none }

/-- Environment with all three secrets present and non-empty. -/
def envSet : Env := { DLE_USER_ID := some "u", DLE_PASSWORD := some "p", PHPSESSID := some "s" }

/-- Success path of the extractor: when the root container, a title heading
with a leading text node, and the cover element with a `style` attribute are
all found, `extract` returns exactly the record built by the per-field rules
of `src/main.py` lines 67-108. -/
theorem extract_ok_char (doc block h1v fig : Node) (tstr : String) (tl : NodeList)
    (st : String)
    (hroot : selectOneDoc bookRootSel doc = some block)
    (h1 : selectOneIn titleSel block = some h1v)
    (hk : h1v.kids = .cons (.text tstr) tl)
    (hc : selectOneIn coverSel block = some fig)
    (hs : fig.attr "style" = some st) :
    extract doc = .ok
      { title := pyStrip tstr
      , subtitle := (selectOneIn subtitleSel block).map getTextStrip
      , description := (selectOneIn descriptionSel block).map (getTextSepStrip "\n")
      , cover := urlToken st
      , publishedYear := (selectOneIn dateCreatedSel block).map getTextStrip
      , language := (selectOneIn locationCreatedSel block).map getTextStrip
      , publisher :=
          if (selectAllIn publishersSel block).isEmpty then none
          else some (String.intercalate ", " ((selectAllIn publishersSel block).map getTextStrip))
      , genres := (selectAllIn genresSel block).map getTextStrip
      , tags := (selectAllIn tagsSel block).map getTextStrip
      , duration :=
          match selectOneIn timeRequiredSel block with
          | none => none
          | some durationMeta =>
            match durationMeta.attr "content" with
            | none => none
            | some c =>
              if c.isEmpty then none
              else
                match ptHours c with
                | none => none
                | some h => some (h * 3600) } := by
  simp only [extract, hroot, h1, hk, hc, hs]

/-- C3: for any HTML document in which the root book container cannot be
located, `extract` fails with `MalformedPage` (an error scoped to that one
page), and likewise fails when the container is present but the required
title heading element is missing; it never returns a record in either
case. -/
theorem extract_malformed_on_missing_root_or_title :
    (∀ doc : Node, selectOneDoc bookRootSel doc = none →
      extract doc = .error .malformedPage) ∧
    (∀ doc block : Node, selectOneDoc bookRootSel doc = some block →
      selectOneIn titleSel block = none →
      extract doc = .error .malformedPage) := by
  constructor
  · intro doc h
    simp only [extract, h]
  · intro doc block hroot htitle
    simp only [extract, hroot, htitle]

/-- Witness for C3: a page without the root container, and a root container
without the title heading, both fail with `MalformedPage`. -/
theorem extract_malformed_on_missing_root_or_title_witness :
    extract docNoRoot = .error .malformedPage ∧
    extract docNoTitle = .error .malformedPage :=
  ⟨extract_malformed_on_missing_root_or_title.1 docNoRoot rfl,
   extract_malformed_on_missing_root_or_title.2 docNoTitle docNoTitle rfl rfl⟩

/-- C6: duration extraction through `extract`: a `content` of `PT5H` yields
18000 seconds, `PT5H30M` also yields 18000 (minutes ignored, only the hour
component of a `PT<N>H` prefix is recognized and multiplied by 3600),
`P1D` yields an absent duration, and a missing `content` attribute yields an
absent duration. -/
theorem duration_parsing_cases :
    (extract (bookPage "x" [durMeta "PT5H"])).map (fun r => r.duration) = .ok (some 18000) ∧
    (extract (bookPage "x" [durMeta "PT5H30M"])).map (fun r => r.duration) = .ok (some 18000) ∧
    (extract (bookPage "x" [durMeta "P1D"])).map (fun r => r.duration) = .ok none ∧
    (extract (bookPage "x" [el "span" [("itemprop", "timeRequired")] []])).map
      (fun r => r.duration) = .ok none :=
  ⟨rfl, rfl, rfl, rfl⟩

/-- A style value `url('x.jpg')` with single quotes, built character by
character because the token appears inside HTML attribute text. -/
def styleQuoted : String :=
  String.mk ['u', 'r', 'l', '(', '\'', 'x', '.', 'j', 'p', 'g', '\'', ')']

/-- The characters between the parentheses of `styleQuoted`, quotes kept. -/
def quotedToken : String := String.mk ['\'', 'x', '.', 'j', 'p', 'g', '\'']

/-- C10: the cover value is the characters between the first `(` and the next
`)` of the first `url(...)` occurrence, verbatim: quotes are kept, whitespace
is not trimmed, `url()` yields a present empty string, and the first
occurrence wins. -/
theorem cover_token_verbatim :
    (extract (bookPage styleQuoted [])).map (fun r => r.cover) = .ok (some quotedToken) ∧
    (extract (bookPage "background: url()" [])).map (fun r => r.cover) = .ok (some "") ∧
    (extract (bookPage "url( x )" [])).map (fun r => r.cover) = .ok (some " x ") ∧
    (extract (bookPage "url(a) url(b)" [])).map (fun r => r.cover) = .ok (some "a") :=
  ⟨rfl, rfl, rfl, rfl⟩

/-- Counterexample to C2 as stated: on a page that has the root book container
and the title heading, a missing cover element (first conjunct) or a cover
element without a `style` attribute (second conjunct) makes `extract` fail
for the whole page instead of returning a record with an absent cover
(`src/main.py` line 74 indexes the element and the attribute without a
guard). -/
theorem cover_missing_fatal_counterexample :
    extract docNoCoverEl = .error .malformedPage ∧
    extract docNoCoverStyle = .error .malformedPage :=
  ⟨rfl, rfl⟩

/-- C2 as amended: of the three cases claimed harmless, only the third is.
When the cover element and its `style` attribute are present but the
attribute contains no `url(...)` occurrence, `extract` still returns a
record and its cover field is absent; a missing cover element or a missing
`style` attribute instead fails the page's extraction (see the
counterexample). -/
theorem cover_absent_when_no_url_match (doc block h1v fig : Node) (tstr : String)
    (tl : NodeList) (st : String)
    (hroot : selectOneDoc bookRootSel doc = some block)
    (h1 : selectOneIn titleSel block = some h1v)
    (hk : h1v.kids = .cons (.text tstr) tl)
    (hc : selectOneIn coverSel block = some fig)
    (hs : fig.attr "style" = some st)
    (hurl : urlToken st = none) :
    ∃ r, extract doc = .ok r ∧ r.cover = none := by
  refine ⟨_, extract_ok_char doc block h1v fig tstr tl st hroot h1 hk hc hs, ?_⟩
  simpa using hurl

/-- Witness for C2 as amended: a page whose cover style is `background: none`
extracts to a record with an absent cover. -/
theorem cover_absent_when_no_url_match_witness :
    ∃ r, extract (bookPage "background: none" []) = .ok r ∧ r.cover = none :=
  cover_absent_when_no_url_match (bookPage "background: none" [])
    (bookPage "background: none" [])
    (el "h1" [("class", "title")] [txt "  Sample Title "])
    (el "figure" [("class", "cover"), ("style", "background: none")] [])
    "  Sample Title " .nil "background: none" rfl rfl rfl rfl rfl rfl

/-- Counterexample to C7 as stated: a page with the root container and the
title heading but no cover element yields no record at all (first conjunct),
and a title heading whose text is all whitespace yields an empty — not
non-empty — title (second conjunct). -/
theorem extract_record_shape_counterexample :
    extract docNoCoverEl = .error .malformedPage ∧
    (extract (bookPageT "   " "x" [])).map (fun r => r.title) = .ok "" :=
  ⟨rfl, rfl⟩

/-- C7 as amended: for detail pages containing the root container, a title
heading whose first child is a text node, and the cover element bearing a
`style` attribute, `extract` returns a record whose title is the stripped
first text (possibly empty), whose unset optional scalar fields are strictly
absent, whose `genres`/`tags` are empty sequences when no anchors match, and
whose never-populated fields keep their empty defaults. -/
theorem extract_record_shape (doc block h1v fig : Node) (tstr : String)
    (tl : NodeList) (st : String)
    (hroot : selectOneDoc bookRootSel doc = some block)
    (h1 : selectOneIn titleSel block = some h1v)
    (hk : h1v.kids = .cons (.text tstr) tl)
    (hc : selectOneIn coverSel block = some fig)
    (hs : fig.attr "style" = some st) :
    ∃ r, extract doc = .ok r ∧
      r.title = pyStrip tstr ∧
      (selectOneIn subtitleSel block = none → r.subtitle = none) ∧
      (selectOneIn descriptionSel block = none → r.description = none) ∧
      (urlToken st = none → r.cover = none) ∧
      (selectOneIn dateCreatedSel block = none → r.publishedYear = none) ∧
      (selectOneIn locationCreatedSel block = none → r.language = none) ∧
      (selectAllIn publishersSel block = [] → r.publisher = none) ∧
      (selectAllIn genresSel block = [] → r.genres = []) ∧
      (selectAllIn tagsSel block = [] → r.tags = []) ∧
      (selectOneIn timeRequiredSel block = none → r.duration = none) ∧
      r.author = none ∧ r.narrator = none ∧ r.isbn = none ∧ r.asin = none ∧
      r.series = [] := by
  refine ⟨_, extract_ok_char doc block h1v fig tstr tl st hroot h1 hk hc hs,
    rfl, ?_, ?_, ?_, ?_, ?_, ?_, ?_, ?_, ?_, rfl, rfl, rfl, rfl, rfl⟩
  all_goals intro h
  all_goals simp [h]

/-- Witness for C7 as amended: a minimal healthy page with no optional
fragments extracts to a record with absent scalars and empty sequences. -/
theorem extract_record_shape_witness :
    ∃ r, extract (bookPage "x" []) = .ok r ∧ r.title = "Sample Title" ∧
      r.subtitle = none ∧ r.description = none ∧ r.cover = none ∧
      r.publishedYear = none ∧ r.language = none ∧ r.publisher = none ∧
      r.genres = [] ∧ r.tags = [] ∧ r.duration = none ∧
      r.author = none ∧ r.narrator = none ∧ r.isbn = none ∧ r.asin = none ∧
      r.series = [] := by
  obtain ⟨r, hok, ht, hsub, hdesc, hcov, hpy, hlang, hpub, hgen, htags, hdur,
      ha, hn, hi, has, hser⟩ :=
    extract_record_shape (bookPage "x" []) (bookPage "x" [])
      (el "h1" [("class", "title")] [txt "  Sample Title "])
      (el "figure" [("class", "cover"), ("style", "x")] [])
      "  Sample Title " .nil "x" rfl rfl rfl rfl rfl
  exact ⟨r, hok, ht, hsub rfl, hdesc rfl, hcov rfl, hpy rfl, hlang rfl, hpub rfl,
    hgen rfl, htags rfl, hdur rfl, ha, hn, hi, has, hser⟩

/-- C8: whenever `extract` returns a record, its publisher field is the texts
of all publisher anchors joined with the separator `", "`, and it is absent
(not the empty string) when zero anchors are found. -/
theorem publisher_join_of_extract (doc block : Node) (r : BookMetadata)
    (hroot : selectOneDoc bookRootSel doc = some block)
    (hok : extract doc = .ok r) :
    r.publisher =
      if (selectAllIn publishersSel block).isEmpty then none
      else some (String.intercalate ", " ((selectAllIn publishersSel block).map getTextStrip)) := by
  cases h1 : selectOneIn titleSel block with
  | none => simp [extract, hroot, h1] at hok
  | some h1v =>
    cases hk : h1v.kids with
    | nil => simp [extract, hroot, h1, hk] at hok
    | cons hd tlk =>
      cases hd with
      | element t a c => simp [extract, hroot, h1, hk] at hok
      | text tstr =>
        cases hc : selectOneIn coverSel block with
        | none => simp [extract, hroot, h1, hk, hc] at hok
        | some fig =>
          cases hs : fig.attr "style" with
          | none => simp [extract, hroot, h1, hk, hc, hs] at hok
          | some st =>
            rw [extract_ok_char doc block h1v fig tstr tlk st hroot h1 hk hc hs] at hok
            injection hok with hr
            rw [← hr]

/-- Witness for C8: two publisher anchors `Acme` and `Beta` join to
`Acme, Beta`; zero anchors leave the field absent rather than empty. -/
theorem publisher_join_of_extract_witness :
    extract (bookPage "x" [pubBlock ["Acme", "Beta"]]) =
      .ok { title := "Sample Title", publisher := some "Acme, Beta" } ∧
    extract (bookPage "x" []) = .ok { title := "Sample Title" } ∧
    ({ title := "Sample Title", publisher := some "Acme, Beta" } : BookMetadata).publisher
      = some "Acme, Beta" ∧
    ({ title := "Sample Title" } : BookMetadata).publisher = none := by
  have hA := publisher_join_of_extract (bookPage "x" [pubBlock ["Acme", "Beta"]])
    (bookPage "x" [pubBlock ["Acme", "Beta"]])
    { title := "Sample Title", publisher := some "Acme, Beta" } rfl rfl
  have hB := publisher_join_of_extract (bookPage "x" []) (bookPage "x" [])
    { title := "Sample Title" } rfl rfl
  exact ⟨rfl, rfl, hA.trans rfl, hB.trans rfl⟩

/-- C1: when the listing succeeds and yields an ordered sequence of links,
`perform_search` returns exactly the records of the links whose detail fetch
and extraction succeeded, in discovery order — the failures (non-success
status or extractor error) contribute nothing and surface no error — and
every link is fetched exactly once, in order. -/
theorem perform_search_collects_successes (net : Net) (query : String) (ck : Cookies)
    (links : List String)
    (hstatus : (net.post query ck).status = 200)
    (hlinks : harvestLinks (net.post query ck).body = some links) :
    perform_search net query ck =
      (.ok (links.filterMap (fun link => (fetch_and_parse_book net link ck).toOption)),
        .post query :: links.map NetCall.get) := by
  simp [perform_search, hstatus, hlinks]

/-- Witness for C1, the partial-failure scenario: the listing yields links
`u1`, `u2`, `u3`; `u2` answers with a non-success status; the result has
exactly the records of `u1` and `u3`, in that order. -/
theorem perform_search_collects_successes_witness :
    (net3.post "q" ck0).status = 200 ∧
    harvestLinks (net3.post "q" ck0).body = some ["u1", "u2", "u3"] ∧
    perform_search net3 "q" ck0 =
      (.ok [book1, book3], [.post "q", .get "u1", .get "u2", .get "u3"]) := by
  refine ⟨rfl, rfl, ?_⟩
  rw [perform_search_collects_successes net3 "q" ck0 ["u1", "u2", "u3"] rfl rfl]
  rfl

/-- C4: if the listing POST's response status is not success, `perform_search`
fails with `SearchUnavailable` for the whole query and issues zero per-item
GET requests (its trace is the POST alone). -/
theorem perform_search_unavailable (net : Net) (query : String) (ck : Cookies)
    (hstatus : (net.post query ck).status ≠ 200) :
    perform_search net query ck = (.error .searchUnavailable, [.post query]) := by
  simp [perform_search, hstatus]

/-- Witness for C4: a listing answering 503 is terminal with no detail GET. -/
theorem perform_search_unavailable_witness :
    (netFail.post "q" ck0).status ≠ 200 ∧
    perform_search netFail "q" ck0 = (.error .searchUnavailable, [.post "q"]) :=
  ⟨by decide, perform_search_unavailable netFail "q" ck0 (by decide)⟩

/-- Falsity of a string option's Python truthiness is exactly absence or
emptiness. -/
theorem truthy_eq_false_iff (o : Option String) :
    truthy o = false ↔ o = none ∨ o = some "" := by
  cases o with
  | none => simp [truthy]
  | some s => simp [truthy, String.isEmpty_iff]

/-- C5: `get_auth_cookies` fails with `Unauthenticated` exactly when at least
one of the three tokens is absent or empty (partial credentials behave the
same as none), and whenever it fails the endpoint fails with
`Unauthenticated` and makes no network call. -/
theorem get_auth_cookies_unauthenticated_iff (env : Env) (net : Net) (query : String) :
    (get_auth_cookies env = .error .unauthenticated ↔
      (env.DLE_USER_ID = none ∨ env.DLE_USER_ID = some "") ∨
      (env.DLE_PASSWORD = none ∨ env.DLE_PASSWORD = some "") ∨
      (env.PHPSESSID = none ∨ env.PHPSESSID = some "")) ∧
    (get_auth_cookies env = .error .unauthenticated →
      search env net query = (.error .unauthenticated, [])) := by
  have key : get_auth_cookies env = .error .unauthenticated ↔
      (truthy env.DLE_USER_ID && truthy env.DLE_PASSWORD && truthy env.PHPSESSID) = false := by
    unfold get_auth_cookies COOKIE_DLE_USER_ID COOKIE_DLE_PASSWORD COOKIE_PHPSESSID
    split
    next h => simp [h]
    next h => simp [h]
  constructor
  · rw [key, show ∀ a b c : Bool, ((a && b && c) = false ↔ a = false ∨ b = false ∨ c = false)
      from by decide]
    rw [truthy_eq_false_iff, truthy_eq_false_iff, truthy_eq_false_iff]
  · intro h
    simp [search, h]

/-- Witness for C5: with all three environment variables unset, the cookies
call fails and `search` fails with `Unauthenticated` before any network
call. -/
theorem get_auth_cookies_unauthenticated_witness :
    get_auth_cookies envUnset = .error .unauthenticated ∧
    search envUnset netFail "anything" = (.error .unauthenticated, []) := by
  have h := get_auth_cookies_unauthenticated_iff envUnset netFail "anything"
  have he : get_auth_cookies envUnset = .error .unauthenticated :=
    h.1.mpr (Or.inl (Or.inl rfl))
  exact ⟨he, h.2 he⟩

/-- Counterexample to C9 as stated: a process started with no secrets whose
environment holds all three secrets at request time still fails with
`Unauthenticated`, because `src/main.py` lines 41-43 read the environment
once at module import and the request path never reads it again. -/
theorem request_time_env_counterexample :
    searchAtRequestTime envUnset envSet netFail "q" = (.error .unauthenticated, []) :=
  rfl

/-- C9 as amended: the unauthenticated outcome is determined by the secrets
as they stood at process startup, not at request time: two runs differing
only in the request-time environment behave identically, and when all three
startup secrets are present and non-empty the endpoint never fails with
`Unauthenticated`. -/
theorem unauthenticated_determined_at_startup (s r1 r2 : Env) (net : Net) (q : String)
    (hu : truthy s.DLE_USER_ID = true) (hp : truthy s.DLE_PASSWORD = true)
    (hs : truthy s.PHPSESSID = true) :
    searchAtRequestTime s r1 net q = searchAtRequestTime s r2 net q ∧
    (searchAtRequestTime s r1 net q).1 ≠ .error .unauthenticated := by
  refine ⟨rfl, ?_⟩
  unfold searchAtRequestTime search get_auth_cookies COOKIE_DLE_USER_ID
    COOKIE_DLE_PASSWORD COOKIE_PHPSESSID
  rw [hu, hp, hs]
  simp only [Bool.and_self, if_true]
  rcases hps : perform_search net q
      { dle_user_id := s.DLE_USER_ID.getD "", dle_password := s.DLE_PASSWORD.getD ""
      , PHPSESSID := s.PHPSESSID.getD "" } with ⟨res, calls⟩
  cases res with
  | ok books => simp
  | error e => cases e with
    | searchUnavailable => simp
    | internalError => simp

/-- Witness for C9 as amended: with all secrets present at startup, runs
against opposite request-time environments agree and do not fail with
`Unauthenticated`. -/
theorem unauthenticated_determined_at_startup_witness :
    searchAtRequestTime envSet envUnset netFail "q" =
      searchAtRequestTime envSet envSet netFail "q" ∧
    (searchAtRequestTime envSet envUnset netFail "q").1 ≠ .error .unauthenticated :=
  unauthenticated_determined_at_startup envSet envUnset envSet netFail "q" rfl rfl rfl
